import Mathlib

/-!
Shallow embedding of the weather/time/forecast tool facade implemented in
`src/agent.py` (functions `get_weather`, `get_current_time`, `get_forecast`).

Modelling choices, all visible in the definitions below:
* Outbound HTTP traffic is modelled by oracle parameters mapping the request
  URL to either an exception text (`Except.error e`, modelling an exception
  raised by `requests.get` or by JSON decoding / field access) or a typed
  response record `{status_code, json}`.  The `json` field is itself an
  `Except`, so that a response whose body does not decode to the expected
  shape is an exception exactly as in the Python code, where `.json()` and
  the subsequent subscripting happen inside the `try` block.
* Every function additionally returns the list of URLs it attempted to
  fetch, in order, so that claims about which calls are performed and in
  which order can be stated.
* Python floats are modelled as rationals; the `float('inf')` and
  `float('-inf')` sentinels used by `get_forecast` are modelled by `Option ℚ`
  with `none` playing the role of the sentinel (`min(inf, x) = x` becomes
  the `none` case of `optMin`).
* `datetime.datetime.fromtimestamp(..).strftime('%Y-%m-%d')` (process-local
  calendar day of a unix timestamp) is modelled by a parameter
  `dayOf : Int → String`; `ZoneInfo` plus `datetime.datetime.now(tz)` plus
  `strftime("%Y-%m-%d %H:%M:%S %Z")` is modelled by a `clock` oracle from
  the zone name to the formatted time (or an exception).
* The Python `set()` of weather descriptions is modelled by an
  insertion-ordered duplicate-free list, its `add` by `addDesc`.
-/

/-- Result dictionary returned by every tool of `src/agent.py`: the Python
dicts carry a `"status"` key and either a `"report"` or an `"error_message"`
key; the two optional fields model the presence or absence of those keys. -/
structure QueryDict where
  status : String
  report : Option String
  error_message : Option String
  deriving DecidableEq

/-- Literal `{"status": "success", "report": r}` as built in `src/agent.py`. -/
def mkSuccess (r : String) : QueryDict :=
  { status := "success", report := some r, error_message := none }

/-- Literal `{"status": "error", "error_message": m}` as built in `src/agent.py`. -/
def mkError (m : String) : QueryDict :=
  { status := "error", report := none, error_message := some m }

/-- Fields of the current-weather JSON body that `get_weather` reads:
`data['main']['temp']` and `data['weather'][0]['description']`. -/
structure WeatherBody where
  temp : ℚ
  description : String
  deriving DecidableEq

/-- Response of the current-weather endpoint: HTTP status code plus the
(possibly failing) decoding of the body into the fields read by the code. -/
structure WeatherResp where
  status_code : Nat
  json : Except String WeatherBody

/-- One entry of the geocoding response list: `[i]['lat']`, `[i]['lon']`. -/
structure GeoEntry where
  lat : ℚ
  lon : ℚ
  deriving DecidableEq

/-- Response of the geocoding endpoint used by `get_current_time`. -/
structure GeoResp where
  status_code : Nat
  json : Except String (List GeoEntry)

/-- Fields of the TimeZoneDB body that `get_current_time` reads:
`tz_data['status']` and `tz_data['zoneName']`. -/
structure TzBody where
  status : String
  zoneName : String

/-- Response of the timezone-lookup endpoint used by `get_current_time`. -/
structure TzResp where
  status_code : Nat
  json : Except String TzBody

/-- One sample of the 5-day/3-hour forecast list: `forecast['dt']`,
`forecast['main']['temp_min']`, `forecast['main']['temp_max']` and
`forecast['weather'][0]['description']`. -/
structure Sample where
  dt : Int
  temp_min : ℚ
  temp_max : ℚ
  description : String
  deriving DecidableEq

/-- Response of the forecast endpoint: status code plus the decoding of
`data['list']` into the typed samples. -/
structure ForecastResp where
  status_code : Nat
  json : Except String (List Sample)

/-- Python f-string interpolation of the (optional) API key: interpolating
`None` into an f-string yields the four characters `None`. -/
def keyStr : Option String → String
  | none => "None"
  | some s => s

/-- Truthiness test `if not OPENWEATHER_API_KEY:` of `get_forecast`: the key
is falsy when the environment variable is unset (`None`) or empty. -/
def keyMissing (k : Option String) : Prop := k = none ∨ k = some ""

instance (k : Option String) : Decidable (keyMissing k) := by
  unfold keyMissing
  infer_instance

/-- Round `10 * q` to the nearest integer, ties to even: the number of
tenths printed by Python's `:.1f` format (on the rational model of the float
values).  Written on the numerator and denominator so that it evaluates by
kernel reduction: `f` is `⌊10 * q⌋` (floor division, the denominator is
positive) and `r` is the remainder of `10 * q` above `f`, scaled by the
denominator, so `2 * r < den` means the fractional part is below one half. -/
def roundTenths (q : ℚ) : ℤ :=
  let f := Int.fdiv (10 * q.num) (q.den : ℤ)
  let r := 10 * q.num - f * (q.den : ℤ)
  if 2 * r < (q.den : ℤ) then f
  else if (q.den : ℤ) < 2 * r then f + 1
  else if f % 2 = 0 then f else f + 1

/-- Python `f"{v:.1f}"` on the rational model of a float value. -/
def fmt1 (q : ℚ) : String :=
  (if roundTenths q < 0 then "-" else "") ++
    toString ((roundTenths q).natAbs / 10) ++ "." ++
    toString ((roundTenths q).natAbs % 10)

/-- Python `f"{v:.1f}"` applied to a running minimum whose sentinel
`float('inf')` (modelled by `none`) prints as `inf`. -/
def fmtMinC : Option ℚ → String
  | none => "inf"
  | some q => fmt1 q

/-- Python `f"{v:.1f}"` applied to a running maximum whose sentinel
`float('-inf')` (modelled by `none`) prints as `-inf`. -/
def fmtMaxC : Option ℚ → String
  | none => "-inf"
  | some q => fmt1 q

/-- Celsius-to-Fahrenheit conversion `v * 9/5 + 32` lifted to the model of
possibly-infinite running extrema (`inf * 9/5 + 32 = inf`). -/
def toFOpt (o : Option ℚ) : Option ℚ := o.map (fun c => c * 9 / 5 + 32)

/-- URL built by `get_weather` (line 73 of `src/agent.py`). -/
def weatherUrl (city : String) (key : Option String) : String :=
  "http://api.openweathermap.org/data/2.5/weather?q=" ++ city ++
    ("&appid=" ++ keyStr key ++ "&units=metric")

/-- URL built by `get_current_time` for geocoding (line 110 of `src/agent.py`). -/
def geoUrl (city : String) (key : Option String) : String :=
  "http://api.openweathermap.org/geo/1.0/direct?q=" ++ city ++
    ("&limit=1&appid=" ++ keyStr key)

/-- URL built by `get_current_time` for the timezone lookup (line 134 of
`src/agent.py`); latitude and longitude are interpolated with `toString`. -/
def tzUrl (key : Option String) (lat lon : ℚ) : String :=
  "http://api.timezonedb.com/v2.1/get-time-zone?key=" ++ keyStr key ++
    ("&format=json&by=position&lat=" ++ toString lat ++ "&lng=" ++ toString lon)

/-- URL built by `get_forecast` (line 179 of `src/agent.py`). -/
def forecastUrl (city : String) (key : Option String) : String :=
  "http://api.openweathermap.org/data/2.5/forecast?q=" ++ city ++
    ("&appid=" ++ keyStr key ++ "&units=metric")

/-- Report string of the 200 branch of `get_weather`. -/
def weatherReport (city : String) (b : WeatherBody) : String :=
  "The weather in " ++ city ++ " is " ++ b.description ++
    " with a temperature of " ++ fmt1 b.temp ++ "°C (" ++
    fmt1 (b.temp * 9 / 5 + 32) ++ "°F)."

/-- Embedding of `get_weather` of `src/agent.py` (lines 67-102).  The second
component of the result is the list of URLs fetched (or attempted). -/
def get_weather (key : Option String) (city : String)
    (http : String → Except String WeatherResp) : QueryDict × List String :=
  match http (weatherUrl city key) with
  | Except.error e =>
      (mkError ("Error getting weather data: " ++ e), [weatherUrl city key])
  | Except.ok r =>
      if r.status_code = 200 then
        match r.json with
        | Except.error e =>
            (mkError ("Error getting weather data: " ++ e), [weatherUrl city key])
        | Except.ok b =>
            (mkSuccess (weatherReport city b), [weatherUrl city key])
      else
        (mkError ("Weather information for \x27" ++ city ++
          "\x27 is not available. Error: " ++ toString r.status_code),
          [weatherUrl city key])

/-- Embedding of `get_current_time` of `src/agent.py` (lines 104-157). -/
def get_current_time (owKey tzKey : Option String) (city : String)
    (geoHttp : String → Except String GeoResp)
    (tzHttp : String → Except String TzResp)
    (clock : String → Except String String) : QueryDict × List String :=
  match geoHttp (geoUrl city owKey) with
  | Except.error e =>
      (mkError ("Error getting time data: " ++ e), [geoUrl city owKey])
  | Except.ok g =>
      if g.status_code ≠ 200 then
        (mkError ("Could not find coordinates for " ++ city), [geoUrl city owKey])
      else
        match g.json with
        | Except.error e =>
            (mkError ("Error getting time data: " ++ e), [geoUrl city owKey])
        | Except.ok geoData =>
            match geoData with
            | [] =>
                (mkError ("City \x27" ++ city ++ "\x27 not found"), [geoUrl city owKey])
            | e0 :: _ =>
                match tzHttp (tzUrl tzKey e0.lat e0.lon) with
                | Except.error e =>
                    (mkError ("Error getting time data: " ++ e),
                      [geoUrl city owKey, tzUrl tzKey e0.lat e0.lon])
                | Except.ok t =>
                    if t.status_code = 200 then
                      match t.json with
                      | Except.error e =>
                          (mkError ("Error getting time data: " ++ e),
                            [geoUrl city owKey, tzUrl tzKey e0.lat e0.lon])
                      | Except.ok b =>
                          if b.status = "OK" then
                            match clock b.zoneName with
                            | Except.error e =>
                                (mkError ("Error getting time data: " ++ e),
                                  [geoUrl city owKey, tzUrl tzKey e0.lat e0.lon])
                            | Except.ok now =>
                                (mkSuccess ("The current time in " ++ city ++
                                  " is " ++ now),
                                  [geoUrl city owKey, tzUrl tzKey e0.lat e0.lon])
                          else
                            (mkError ("Could not get timezone information for " ++ city),
                              [geoUrl city owKey, tzUrl tzKey e0.lat e0.lon])
                    else
                      (mkError ("Could not get timezone information for " ++ city),
                        [geoUrl city owKey, tzUrl tzKey e0.lat e0.lon])

/-- Aggregate value of `daily_forecasts[date]` in `get_forecast`: running
minimum and maximum (with `none` for the `float('inf')` / `float('-inf')`
initial sentinels) and the set of descriptions, modelled as an
insertion-ordered duplicate-free list. -/
structure DayAgg where
  temp_min : Option ℚ
  temp_max : Option ℚ
  descriptions : List String
  deriving DecidableEq

/-- Python `min(daily_forecasts[date]['temp_min'], v)` with the `inf`
sentinel modelled by `none`. -/
def optMin (o : Option ℚ) (q : ℚ) : ℚ :=
  match o with
  | none => q
  | some v => min v q

/-- Python `max(daily_forecasts[date]['temp_max'], v)` with the `-inf`
sentinel modelled by `none`. -/
def optMax (o : Option ℚ) (q : ℚ) : ℚ :=
  match o with
  | none => q
  | some v => max v q

/-- Python `set.add` on the insertion-ordered model of the description set. -/
def addDesc (l : List String) (d : String) : List String :=
  if d ∈ l then l else l ++ [d]

/-- One iteration of the grouping loop of `get_forecast` applied to the
aggregate of the sample's day. -/
def updAgg (a : DayAgg) (s : Sample) : DayAgg :=
  { temp_min := some (optMin a.temp_min s.temp_min),
    temp_max := some (optMax a.temp_max s.temp_max),
    descriptions := addDesc a.descriptions s.description }

/-- Fresh aggregate `{'temp_min': inf, 'temp_max': -inf, 'descriptions': set()}`. -/
def emptyAgg : DayAgg :=
  { temp_min := none, temp_max := none, descriptions := [] }

/-- One iteration of the grouping loop of `get_forecast` on the whole
insertion-ordered dictionary `daily_forecasts` (modelled by an association
list, which is how a Python dict iterates). -/
def assocStep (dayOf : Int → String) (acc : List (String × DayAgg))
    (s : Sample) : List (String × DayAgg) :=
  if dayOf s.dt ∈ acc.map Prod.fst then
    acc.map (fun p => if p.1 = dayOf s.dt then (p.1, updAgg p.2 s) else p)
  else
    acc ++ [(dayOf s.dt, updAgg emptyAgg s)]

/-- The grouping loop of `get_forecast` (lines 188-200 of `src/agent.py`). -/
def groupDaily (dayOf : Int → String) (ss : List Sample) :
    List (String × DayAgg) :=
  ss.foldl (assocStep dayOf) []

/-- Rendering of one day block of the forecast report (lines 205-214). -/
def renderDay (p : String × DayAgg) : String :=
  "📅 " ++ p.1 ++ ":\n   🌡️ Temperatura: " ++ fmtMinC p.2.temp_min ++
    "°C a " ++ fmtMaxC p.2.temp_max ++ "°C (" ++
    fmtMinC (toFOpt p.2.temp_min) ++ "°F a " ++ fmtMaxC (toFOpt p.2.temp_max) ++
    "°F)\n   ☁️ Condiciones: " ++ String.intercalate ", " p.2.descriptions ++
    "\n\n"

/-- The full forecast report: header plus one block per rendered day. -/
def renderForecast (city : String) (entries : List (String × DayAgg)) : String :=
  ("Pronóstico del tiempo para " ++ city ++ ":\n\n") ++
    String.join (entries.map renderDay)

/-- Error message of the non-200 branch of `get_forecast` (lines 221-227):
a generic message carrying the status code, overridden for 401 and 404. -/
def forecastErrMsg (city : String) (s : Nat) : String :=
  if s = 401 then "API key inválida o no configurada correctamente"
  else if s = 404 then "No se encontró la ciudad: " ++ city
  else "Forecast information for \x27" ++ city ++
    "\x27 is not available. Error: " ++ toString s

/-- Embedding of `get_forecast` of `src/agent.py` (lines 159-239). -/
def get_forecast (dayOf : Int → String) (key : Option String) (city : String)
    (http : String → Except String ForecastResp) : QueryDict × List String :=
  if keyMissing key then
    (mkError "OpenWeather API key no está configurada", [])
  else
    match http (forecastUrl city key) with
    | Except.error e =>
        (mkError ("Error getting forecast data: " ++ e), [forecastUrl city key])
    | Except.ok r =>
        if r.status_code = 200 then
          match r.json with
          | Except.error e =>
              (mkError ("Error getting forecast data: " ++ e), [forecastUrl city key])
          | Except.ok ss =>
              (mkSuccess (renderForecast city ((groupDaily dayOf ss).take 5)),
                [forecastUrl city key])
        else
          (mkError (forecastErrMsg city r.status_code), [forecastUrl city key])

/-- Invariant claimed for `QueryResult`: exactly one of the two variants is
populated — a `success` status comes with a report and no error message, an
`error` status with an error message and no report. -/
def exactlyOne (d : QueryDict) : Prop :=
  (d.status = "success" ∧ d.report ≠ none ∧ d.error_message = none) ∨
  (d.status = "error" ∧ d.report = none ∧ d.error_message ≠ none)

/-- Prefix test on character lists, used to define the substring test. -/
def isPre : List Char → List Char → Bool
  | [], _ => true
  | _ :: _, [] => false
  | a :: as, b :: bs => a == b && isPre as bs

/-- Substring test on character lists. -/
def isSubL (n : List Char) : List Char → Bool
  | [] => isPre n []
  | b :: bs => isPre n (b :: bs) || isSubL n bs

/-- Substring test on strings: `isSub n h` holds when `n` occurs
contiguously inside `h` ("the status code is embedded in the message"). -/
def isSub (n h : String) : Bool := isSubL n.data h.data

lemma exactlyOne_mkSuccess (r : String) : exactlyOne (mkSuccess r) :=
  Or.inl ⟨rfl, by simp [mkSuccess], rfl⟩

lemma exactlyOne_mkError (m : String) : exactlyOne (mkError m) :=
  Or.inr ⟨rfl, rfl, by simp [mkError]⟩

/-- Exhaustive case analysis of `get_weather`: exception, 200 with a JSON
exception, 200 with a decoded body, or a non-200 status. -/
lemma weather_cases (key : Option String) (city : String)
    (http : String → Except String WeatherResp) :
    (∃ e, http (weatherUrl city key) = Except.error e ∧
      get_weather key city http =
        (mkError ("Error getting weather data: " ++ e), [weatherUrl city key])) ∨
    (∃ r e, http (weatherUrl city key) = Except.ok r ∧ r.status_code = 200 ∧
      r.json = Except.error e ∧
      get_weather key city http =
        (mkError ("Error getting weather data: " ++ e), [weatherUrl city key])) ∨
    (∃ r b, http (weatherUrl city key) = Except.ok r ∧ r.status_code = 200 ∧
      r.json = Except.ok b ∧
      get_weather key city http =
        (mkSuccess (weatherReport city b), [weatherUrl city key])) ∨
    (∃ r, http (weatherUrl city key) = Except.ok r ∧ r.status_code ≠ 200 ∧
      get_weather key city http =
        (mkError ("Weather information for \x27" ++ city ++
          "\x27 is not available. Error: " ++ toString r.status_code),
          [weatherUrl city key])) := by
  cases hh : http (weatherUrl city key) with
  | error e =>
      exact Or.inl ⟨e, rfl, by simp [get_weather, hh]⟩
  | ok r =>
      by_cases hs : r.status_code = 200
      · cases hj : r.json with
        | error e =>
            exact Or.inr (Or.inl ⟨r, e, rfl, hs, hj, by simp [get_weather, hh, hs, hj]⟩)
        | ok b =>
            exact Or.inr (Or.inr (Or.inl ⟨r, b, rfl, hs, hj, by simp [get_weather, hh, hs, hj]⟩))
      · exact Or.inr (Or.inr (Or.inr ⟨r, rfl, hs, by simp [get_weather, hh, hs]⟩))

/-- Exhaustive case analysis of `get_forecast`: missing key, exception, 200
with a JSON exception, 200 with a decoded sample list, or a non-200 status. -/
lemma forecast_cases (dayOf : Int → String) (key : Option String)
    (city : String) (http : String → Except String ForecastResp) :
    (keyMissing key ∧
      get_forecast dayOf key city http =
        (mkError "OpenWeather API key no está configurada", [])) ∨
    (¬ keyMissing key ∧
      ((∃ e, http (forecastUrl city key) = Except.error e ∧
        get_forecast dayOf key city http =
          (mkError ("Error getting forecast data: " ++ e), [forecastUrl city key])) ∨
      (∃ r e, http (forecastUrl city key) = Except.ok r ∧ r.status_code = 200 ∧
        r.json = Except.error e ∧
        get_forecast dayOf key city http =
          (mkError ("Error getting forecast data: " ++ e), [forecastUrl city key])) ∨
      (∃ r ss, http (forecastUrl city key) = Except.ok r ∧ r.status_code = 200 ∧
        r.json = Except.ok ss ∧
        get_forecast dayOf key city http =
          (mkSuccess (renderForecast city ((groupDaily dayOf ss).take 5)),
            [forecastUrl city key])) ∨
      (∃ r, http (forecastUrl city key) = Except.ok r ∧ r.status_code ≠ 200 ∧
        get_forecast dayOf key city http =
          (mkError (forecastErrMsg city r.status_code), [forecastUrl city key])))) := by
  by_cases hk : keyMissing key
  · exact Or.inl ⟨hk, by simp [get_forecast, hk]⟩
  · refine Or.inr ⟨hk, ?_⟩
    cases hh : http (forecastUrl city key) with
    | error e =>
        exact Or.inl ⟨e, rfl, by simp [get_forecast, hk, hh]⟩
    | ok r =>
        by_cases hs : r.status_code = 200
        · cases hj : r.json with
          | error e =>
              exact Or.inr (Or.inl ⟨r, e, rfl, hs, hj, by simp [get_forecast, hk, hh, hs, hj]⟩)
          | ok ss =>
              exact Or.inr (Or.inr (Or.inl ⟨r, ss, rfl, hs, hj, by simp [get_forecast, hk, hh, hs, hj]⟩))
        · exact Or.inr (Or.inr (Or.inr ⟨r, rfl, hs, by simp [get_forecast, hk, hh, hs]⟩))

/-- Exhaustive case analysis of `get_current_time`: geocoding exception,
geocoding non-200, geocoding JSON exception, empty geocoding list, and — only
after a 200 geocoding response with a non-empty list — the five outcomes of
the timezone stage. -/
lemma time_cases (owKey tzKey : Option String) (city : String)
    (geoHttp : String → Except String GeoResp)
    (tzHttp : String → Except String TzResp)
    (clock : String → Except String String) :
    (∃ e, geoHttp (geoUrl city owKey) = Except.error e ∧
      get_current_time owKey tzKey city geoHttp tzHttp clock =
        (mkError ("Error getting time data: " ++ e), [geoUrl city owKey])) ∨
    (∃ g, geoHttp (geoUrl city owKey) = Except.ok g ∧ g.status_code ≠ 200 ∧
      get_current_time owKey tzKey city geoHttp tzHttp clock =
        (mkError ("Could not find coordinates for " ++ city), [geoUrl city owKey])) ∨
    (∃ g e, geoHttp (geoUrl city owKey) = Except.ok g ∧ g.status_code = 200 ∧
      g.json = Except.error e ∧
      get_current_time owKey tzKey city geoHttp tzHttp clock =
        (mkError ("Error getting time data: " ++ e), [geoUrl city owKey])) ∨
    (∃ g, geoHttp (geoUrl city owKey) = Except.ok g ∧ g.status_code = 200 ∧
      g.json = Except.ok [] ∧
      get_current_time owKey tzKey city geoHttp tzHttp clock =
        (mkError ("City \x27" ++ city ++ "\x27 not found"), [geoUrl city owKey])) ∨
    (∃ g e0 rest, geoHttp (geoUrl city owKey) = Except.ok g ∧ g.status_code = 200 ∧
      g.json = Except.ok (e0 :: rest) ∧
      ((∃ e, tzHttp (tzUrl tzKey e0.lat e0.lon) = Except.error e ∧
        get_current_time owKey tzKey city geoHttp tzHttp clock =
          (mkError ("Error getting time data: " ++ e),
            [geoUrl city owKey, tzUrl tzKey e0.lat e0.lon])) ∨
      (∃ t, tzHttp (tzUrl tzKey e0.lat e0.lon) = Except.ok t ∧ t.status_code ≠ 200 ∧
        get_current_time owKey tzKey city geoHttp tzHttp clock =
          (mkError ("Could not get timezone information for " ++ city),
            [geoUrl city owKey, tzUrl tzKey e0.lat e0.lon])) ∨
      (∃ t e, tzHttp (tzUrl tzKey e0.lat e0.lon) = Except.ok t ∧ t.status_code = 200 ∧
        t.json = Except.error e ∧
        get_current_time owKey tzKey city geoHttp tzHttp clock =
          (mkError ("Error getting time data: " ++ e),
            [geoUrl city owKey, tzUrl tzKey e0.lat e0.lon])) ∨
      (∃ t b, tzHttp (tzUrl tzKey e0.lat e0.lon) = Except.ok t ∧ t.status_code = 200 ∧
        t.json = Except.ok b ∧ b.status ≠ "OK" ∧
        get_current_time owKey tzKey city geoHttp tzHttp clock =
          (mkError ("Could not get timezone information for " ++ city),
            [geoUrl city owKey, tzUrl tzKey e0.lat e0.lon])) ∨
      (∃ t b e, tzHttp (tzUrl tzKey e0.lat e0.lon) = Except.ok t ∧ t.status_code = 200 ∧
        t.json = Except.ok b ∧ b.status = "OK" ∧ clock b.zoneName = Except.error e ∧
        get_current_time owKey tzKey city geoHttp tzHttp clock =
          (mkError ("Error getting time data: " ++ e),
            [geoUrl city owKey, tzUrl tzKey e0.lat e0.lon])) ∨
      (∃ t b now, tzHttp (tzUrl tzKey e0.lat e0.lon) = Except.ok t ∧ t.status_code = 200 ∧
        t.json = Except.ok b ∧ b.status = "OK" ∧ clock b.zoneName = Except.ok now ∧
        get_current_time owKey tzKey city geoHttp tzHttp clock =
          (mkSuccess ("The current time in " ++ city ++ " is " ++ now),
            [geoUrl city owKey, tzUrl tzKey e0.lat e0.lon])))) := by
  cases hg : geoHttp (geoUrl city owKey) with
  | error e =>
      exact Or.inl ⟨e, rfl, by simp [get_current_time, hg]⟩
  | ok g =>
      by_cases hgs : g.status_code = 200
      · cases hgj : g.json with
        | error e =>
            exact Or.inr (Or.inr (Or.inl ⟨g, e, rfl, hgs, hgj,
              by simp [get_current_time, hg, hgs, hgj]⟩))
        | ok geoData =>
            cases geoData with
            | nil =>
                exact Or.inr (Or.inr (Or.inr (Or.inl ⟨g, rfl, hgs, hgj,
                  by simp [get_current_time, hg, hgs, hgj]⟩)))
            | cons e0 rest =>
                refine Or.inr (Or.inr (Or.inr (Or.inr ⟨g, e0, rest, rfl, hgs, hgj, ?_⟩)))
                cases ht : tzHttp (tzUrl tzKey e0.lat e0.lon) with
                | error e =>
                    exact Or.inl ⟨e, rfl, by simp [get_current_time, hg, hgs, hgj, ht]⟩
                | ok t =>
                    by_cases hts : t.status_code = 200
                    · cases htj : t.json with
                      | error e =>
                          exact Or.inr (Or.inr (Or.inl ⟨t, e, rfl, hts, htj,
                            by simp [get_current_time, hg, hgs, hgj, ht, hts, htj]⟩))
                      | ok b =>
                          by_cases hb : b.status = "OK"
                          · cases hc : clock b.zoneName with
                            | error e =>
                                exact Or.inr (Or.inr (Or.inr (Or.inr (Or.inl ⟨t, b, e, rfl, hts,
                                  htj, hb, hc,
                                  by simp [get_current_time, hg, hgs, hgj, ht, hts, htj, hb, hc]⟩))))
                            | ok now =>
                                exact Or.inr (Or.inr (Or.inr (Or.inr (Or.inr ⟨t, b, now, rfl, hts,
                                  htj, hb, hc,
                                  by simp [get_current_time, hg, hgs, hgj, ht, hts, htj, hb, hc]⟩))))
                          · exact Or.inr (Or.inr (Or.inr (Or.inl ⟨t, b, rfl, hts, htj, hb,
                              by simp [get_current_time, hg, hgs, hgj, ht, hts, htj, hb]⟩)))
                    · exact Or.inr (Or.inl ⟨t, rfl, hts,
                        by simp [get_current_time, hg, hgs, hgj, ht, hts]⟩)
      · exact Or.inr (Or.inl ⟨g, rfl, hgs, by simp [get_current_time, hg, hgs]⟩)

/-- First-seen insertion of one day key, the effect of the grouping loop on
the (insertion-ordered) key set of the Python dict `daily_forecasts`. -/
def addDay (ds : List String) (d : String) : List String :=
  if d ∈ ds then ds else ds ++ [d]

/-- The distinct calendar days of a list of day keys, in first-seen order:
the key order of the Python dict `daily_forecasts`. -/
def firstSeen (l : List String) : List String := l.foldl addDay []

/-- Dictionary lookup `daily_forecasts[date]` on the association-list model
(first entry with the given key). -/
def lookupA (g : List (String × DayAgg)) (d : String) : Option DayAgg :=
  (g.find? (fun p => p.1 == d)).map Prod.snd

/-- Specification-side description of how a (possibly absent) aggregate
grows when the samples of its day are folded over it. -/
def extendAgg (o : Option DayAgg) (l : List Sample) : Option DayAgg :=
  match o with
  | some a => some (l.foldl updAgg a)
  | none =>
      match l with
      | [] => none
      | _ :: _ => some (l.foldl updAgg emptyAgg)

lemma mem_addDay {ds : List String} {x d : String} :
    d ∈ addDay ds x ↔ d ∈ ds ∨ d = x := by
  unfold addDay
  split
  · constructor
    · exact fun h => Or.inl h
    · rintro (h | rfl)
      · exact h
      · assumption
  · simp

lemma nodup_addDay {ds : List String} {x : String} (h : ds.Nodup) :
    (addDay ds x).Nodup := by
  unfold addDay
  split
  · exact h
  · rw [List.nodup_append]
    refine ⟨h, List.nodup_singleton x, ?_⟩
    intro a ha hb
    rw [List.mem_singleton] at hb
    subst hb
    exact absurd ha (by assumption)

lemma foldl_addDay_mem : ∀ (l : List String) (acc : List String) (d : String),
    d ∈ l.foldl addDay acc ↔ d ∈ acc ∨ d ∈ l := by
  intro l
  induction l with
  | nil => simp
  | cons x t ih =>
      intro acc d
      rw [List.foldl_cons, ih, mem_addDay]
      simp [or_assoc]

lemma foldl_addDay_nodup : ∀ (l : List String) (acc : List String),
    acc.Nodup → (l.foldl addDay acc).Nodup := by
  intro l
  induction l with
  | nil => exact fun acc h => h
  | cons x t ih =>
      intro acc h
      exact ih (addDay acc x) (nodup_addDay h)

lemma mem_firstSeen {l : List String} {d : String} :
    d ∈ firstSeen l ↔ d ∈ l := by
  unfold firstSeen
  rw [foldl_addDay_mem]
  simp

lemma nodup_firstSeen (l : List String) : (firstSeen l).Nodup :=
  foldl_addDay_nodup l [] List.nodup_nil

lemma keys_assocStep (dayOf : Int → String) (acc : List (String × DayAgg))
    (s : Sample) :
    (assocStep dayOf acc s).map Prod.fst =
      addDay (acc.map Prod.fst) (dayOf s.dt) := by
  unfold assocStep addDay
  split
  · rw [List.map_map]
    apply List.map_congr_left
    intro p _
    simp only [Function.comp_apply]
    split <;> rfl
  · simp

lemma keys_foldl (dayOf : Int → String) :
    ∀ (ss : List Sample) (acc : List (String × DayAgg)),
    ((ss.foldl (assocStep dayOf) acc).map Prod.fst) =
      (ss.map (fun s => dayOf s.dt)).foldl addDay (acc.map Prod.fst) := by
  intro ss
  induction ss with
  | nil => simp
  | cons s t ih =>
      intro acc
      rw [List.foldl_cons, ih, List.map_cons, List.foldl_cons, keys_assocStep]

/-- The keys of the grouped dictionary are exactly the distinct calendar
days of the samples, in first-seen order. -/
lemma keys_groupDaily (dayOf : Int → String) (ss : List Sample) :
    (groupDaily dayOf ss).map Prod.fst =
      firstSeen (ss.map (fun s => dayOf s.dt)) := by
  unfold groupDaily firstSeen
  rw [keys_foldl]
  rfl

lemma lookupA_eq_none {g : List (String × DayAgg)} {d : String} :
    lookupA g d = none ↔ d ∉ g.map Prod.fst := by
  unfold lookupA
  rw [Option.map_eq_none', List.find?_eq_none]
  constructor
  · intro h hmem
    rcases List.mem_map.mp hmem with ⟨p, hp, hpd⟩
    exact (h p hp) (beq_iff_eq.mpr hpd)
  · intro h p hp hpd
    exact h (List.mem_map.mpr ⟨p, hp, beq_iff_eq.mp hpd⟩)

lemma lookupA_append_not_mem {g : List (String × DayAgg)} {d : String}
    {a : DayAgg} (h : d ∉ g.map Prod.fst) :
    lookupA (g ++ [(d, a)]) d = some a := by
  unfold lookupA
  rw [List.find?_append]
  have h1 : g.find? (fun p => p.1 == d) = none := by
    rw [List.find?_eq_none]
    intro x hx
    simp only [beq_iff_eq]
    intro hxd
    exact h (List.mem_map.mpr ⟨x, hx, hxd⟩)
  rw [h1, Option.none_or]
  rw [List.find?_cons_of_pos _ (by simp)]
  rfl

lemma lookupA_append_ne {g : List (String × DayAgg)} {k d : String}
    {a : DayAgg} (h : d ≠ k) :
    lookupA (g ++ [(k, a)]) d = lookupA g d := by
  unfold lookupA
  rw [List.find?_append]
  have h2 : List.find? (fun p => p.1 == d) [(k, a)] = none := by
    rw [List.find?_eq_none]
    intro x hx
    rw [List.mem_singleton] at hx
    subst hx
    simp only [beq_iff_eq]
    exact fun hc => h hc.symm
  rw [h2, Option.or_none]

lemma fst_comp_update (k : String) (s : Sample) (d : String) :
    ((fun p : String × DayAgg => p.1 == d) ∘
      (fun p => if p.1 = k then (p.1, updAgg p.2 s) else p)) =
      (fun p : String × DayAgg => p.1 == d) := by
  funext p
  simp only [Function.comp_apply]
  split <;> rfl

lemma lookupA_update_self {g : List (String × DayAgg)} {k : String}
    {a : DayAgg} (s : Sample) (h : lookupA g k = some a) :
    lookupA (g.map (fun p => if p.1 = k then (p.1, updAgg p.2 s) else p)) k =
      some (updAgg a s) := by
  unfold lookupA at h ⊢
  rw [List.find?_map, fst_comp_update]
  cases hf : List.find? (fun p => p.1 == k) g with
  | none =>
      rw [hf] at h
      exact Option.noConfusion h
  | some q =>
      rw [hf] at h
      have hq := List.find?_some hf
      simp only [beq_iff_eq] at hq
      simp only [Option.map_some'] at h ⊢
      rw [if_pos hq]
      simp only [Option.some.injEq] at h ⊢
      rw [h]

lemma lookupA_update_ne {g : List (String × DayAgg)} {k d : String}
    (s : Sample) (h : d ≠ k) :
    lookupA (g.map (fun p => if p.1 = k then (p.1, updAgg p.2 s) else p)) d =
      lookupA g d := by
  unfold lookupA
  rw [List.find?_map, fst_comp_update]
  cases hf : List.find? (fun p => p.1 == d) g with
  | none => rfl
  | some q =>
      have hq := List.find?_some hf
      simp only [beq_iff_eq] at hq
      simp only [Option.map_some']
      rw [if_neg (by rw [hq]; exact fun hc => h hc)]

/-- Folding the grouping step over further samples extends each day's
aggregate by exactly the samples of that day. -/
lemma lookupA_foldl (dayOf : Int → String) :
    ∀ (ss : List Sample) (acc : List (String × DayAgg)) (d : String),
    lookupA (ss.foldl (assocStep dayOf) acc) d =
      extendAgg (lookupA acc d) (ss.filter (fun s => dayOf s.dt == d)) := by
  intro ss
  induction ss with
  | nil =>
      intro acc d
      simp only [List.foldl_nil, List.filter_nil]
      cases lookupA acc d <;> rfl
  | cons s t ih =>
      intro acc d
      rw [List.foldl_cons, ih]
      by_cases hd : dayOf s.dt = d
      · subst hd
        rw [List.filter_cons_of_pos (by simp)]
        cases hl : lookupA acc (dayOf s.dt) with
        | some a =>
            have hmem : dayOf s.dt ∈ acc.map Prod.fst := by
              by_contra hc
              rw [lookupA_eq_none.mpr hc] at hl
              exact Option.noConfusion hl
            unfold assocStep
            rw [if_pos hmem, lookupA_update_self s hl]
            simp [extendAgg, List.foldl_cons]
        | none =>
            have hmem : dayOf s.dt ∉ acc.map Prod.fst := lookupA_eq_none.mp hl
            unfold assocStep
            rw [if_neg hmem, lookupA_append_not_mem hmem]
            simp [extendAgg, List.foldl_cons]
      · rw [List.filter_cons_of_neg (by simp [hd])]
        congr 1
        unfold assocStep
        split
        · exact lookupA_update_ne s (fun h => hd h.symm)
        · exact lookupA_append_ne (fun h => hd h.symm)

/-- Lookup description of the grouped forecast dictionary. -/
lemma lookupA_groupDaily (dayOf : Int → String) (ss : List Sample) (d : String) :
    lookupA (groupDaily dayOf ss) d =
      extendAgg none (ss.filter (fun s => dayOf s.dt == d)) :=
  lookupA_foldl dayOf ss [] d

lemma lookupA_of_mem : ∀ (g : List (String × DayAgg)),
    (g.map Prod.fst).Nodup → ∀ (d : String) (a : DayAgg),
    (d, a) ∈ g → lookupA g d = some a := by
  intro g
  induction g with
  | nil => simp
  | cons p rest ih =>
      intro hnd d a hmem
      rw [List.map_cons, List.nodup_cons] at hnd
      rcases List.mem_cons.mp hmem with h | h
      · subst h
        unfold lookupA
        rw [List.find?_cons_of_pos _ (by simp)]
        rfl
      · have hne : p.1 ≠ d := by
          intro hc
          exact hnd.1 (hc ▸ List.mem_map.mpr ⟨(d, a), h, rfl⟩)
        unfold lookupA
        rw [List.find?_cons_of_neg _ (by simp [hne])]
        exact ih hnd.2 d a h

lemma mem_addDesc {l : List String} {x c : String} :
    c ∈ addDesc l x ↔ c ∈ l ∨ c = x := by
  unfold addDesc
  split
  · constructor
    · exact fun h => Or.inl h
    · rintro (h | rfl)
      · exact h
      · assumption
  · simp

lemma nodup_addDesc {l : List String} {x : String} (h : l.Nodup) :
    (addDesc l x).Nodup := by
  unfold addDesc
  split
  · exact h
  · rw [List.nodup_append]
    refine ⟨h, List.nodup_singleton x, ?_⟩
    intro a ha hb
    rw [List.mem_singleton] at hb
    subst hb
    exact absurd ha (by assumption)

lemma foldl_updAgg_min : ∀ (l : List Sample) (a : DayAgg) (m : ℚ),
    (l.foldl updAgg a).temp_min = some m →
    (m ∈ l.map (fun s => s.temp_min) ∨ a.temp_min = some m) ∧
    (∀ x ∈ l.map (fun s => s.temp_min), m ≤ x) ∧
    (∀ y : ℚ, a.temp_min = some y → m ≤ y) := by
  intro l
  induction l with
  | nil =>
      intro a m h
      simp only [List.foldl_nil] at h
      refine ⟨Or.inr h, by simp, ?_⟩
      intro y hy
      rw [h] at hy
      exact le_of_eq (Option.some.inj hy)
  | cons s t ih =>
      intro a m h
      rw [List.foldl_cons] at h
      obtain ⟨hmem, hbound, hacc⟩ := ih (updAgg a s) m h
      have hupd : (updAgg a s).temp_min = some (optMin a.temp_min s.temp_min) := rfl
      have hm := hacc _ hupd
      refine ⟨?_, ?_, ?_⟩
      · rcases hmem with hm1 | hm1
        · exact Or.inl (List.mem_cons_of_mem _ hm1)
        · rw [hupd] at hm1
          cases ha : a.temp_min with
          | none =>
              rw [ha] at hm1
              simp only [optMin, Option.some.injEq] at hm1
              exact Or.inl (by rw [List.map_cons, ← hm1]; exact List.mem_cons_self _ _)
          | some v =>
              rw [ha] at hm1
              simp only [optMin, Option.some.injEq] at hm1
              rcases le_total v s.temp_min with hle | hle
              · rw [min_eq_left hle] at hm1
                exact Or.inr (by rw [hm1])
              · rw [min_eq_right hle] at hm1
                exact Or.inl (by rw [List.map_cons, ← hm1]; exact List.mem_cons_self _ _)
      · intro x hx
        rw [List.map_cons] at hx
        rcases List.mem_cons.mp hx with rfl | hx
        · have hstep : optMin a.temp_min s.temp_min ≤ s.temp_min := by
            cases a.temp_min with
            | none => exact le_refl _
            | some v => exact min_le_right v s.temp_min
          exact le_trans hm hstep
        · exact hbound x hx
      · intro y hy
        have hstep : optMin a.temp_min s.temp_min ≤ y := by
          rw [hy]
          exact min_le_left y s.temp_min
        exact le_trans hm hstep

lemma foldl_updAgg_max : ∀ (l : List Sample) (a : DayAgg) (m : ℚ),
    (l.foldl updAgg a).temp_max = some m →
    (m ∈ l.map (fun s => s.temp_max) ∨ a.temp_max = some m) ∧
    (∀ x ∈ l.map (fun s => s.temp_max), x ≤ m) ∧
    (∀ y : ℚ, a.temp_max = some y → y ≤ m) := by
  intro l
  induction l with
  | nil =>
      intro a m h
      simp only [List.foldl_nil] at h
      refine ⟨Or.inr h, by simp, ?_⟩
      intro y hy
      rw [h] at hy
      exact le_of_eq (Option.some.inj hy).symm
  | cons s t ih =>
      intro a m h
      rw [List.foldl_cons] at h
      obtain ⟨hmem, hbound, hacc⟩ := ih (updAgg a s) m h
      have hupd : (updAgg a s).temp_max = some (optMax a.temp_max s.temp_max) := rfl
      have hm := hacc _ hupd
      refine ⟨?_, ?_, ?_⟩
      · rcases hmem with hm1 | hm1
        · exact Or.inl (List.mem_cons_of_mem _ hm1)
        · rw [hupd] at hm1
          cases ha : a.temp_max with
          | none =>
              rw [ha] at hm1
              simp only [optMax, Option.some.injEq] at hm1
              exact Or.inl (by rw [List.map_cons, ← hm1]; exact List.mem_cons_self _ _)
          | some v =>
              rw [ha] at hm1
              simp only [optMax, Option.some.injEq] at hm1
              rcases le_total v s.temp_max with hle | hle
              · rw [max_eq_right hle] at hm1
                exact Or.inl (by rw [List.map_cons, ← hm1]; exact List.mem_cons_self _ _)
              · rw [max_eq_left hle] at hm1
                exact Or.inr (by rw [hm1])
      · intro x hx
        rw [List.map_cons] at hx
        rcases List.mem_cons.mp hx with rfl | hx
        · have hstep : s.temp_max ≤ optMax a.temp_max s.temp_max := by
            cases a.temp_max with
            | none => exact le_refl _
            | some v => exact le_max_right v s.temp_max
          exact le_trans hstep hm
        · exact hbound x hx
      · intro y hy
        have hstep : y ≤ optMax a.temp_max s.temp_max := by
          rw [hy]
          exact le_max_left y s.temp_max
        exact le_trans hstep hm

lemma foldl_updAgg_desc_mem : ∀ (l : List Sample) (a : DayAgg) (c : String),
    c ∈ (l.foldl updAgg a).descriptions ↔
      c ∈ a.descriptions ∨ c ∈ l.map (fun s => s.description) := by
  intro l
  induction l with
  | nil => simp
  | cons s t ih =>
      intro a c
      rw [List.foldl_cons, ih]
      have hstep : c ∈ (updAgg a s).descriptions ↔
          c ∈ a.descriptions ∨ c = s.description := mem_addDesc
      rw [hstep, List.map_cons]
      simp [or_assoc]

lemma foldl_updAgg_desc_nodup : ∀ (l : List Sample) (a : DayAgg),
    a.descriptions.Nodup → (l.foldl updAgg a).descriptions.Nodup := by
  intro l
  induction l with
  | nil => exact fun a h => h
  | cons s t ih =>
      intro a h
      rw [List.foldl_cons]
      exact ih (updAgg a s) (nodup_addDesc h)

lemma foldl_updAgg_min_none : ∀ (l : List Sample) (a : DayAgg),
    (l.foldl updAgg a).temp_min = none → a.temp_min = none ∧ l = [] := by
  intro l
  induction l with
  | nil => exact fun a h => ⟨by simpa using h, rfl⟩
  | cons s t ih =>
      intro a h
      rw [List.foldl_cons] at h
      have hc := (ih _ h).1
      simp [updAgg] at hc

lemma isPre_refl : ∀ (l : List Char), isPre l l = true := by
  intro l
  induction l with
  | nil => rfl
  | cons a t ih => simp [isPre, ih]

lemma isSubL_append : ∀ (p n : List Char), isSubL n (p ++ n) = true := by
  intro p
  induction p with
  | nil =>
      intro n
      cases n with
      | nil => rfl
      | cons b bs => simp [isSubL, isPre_refl]
  | cons c p ih =>
      intro n
      simp [isSubL, ih]

/-- A string is a substring of anything it ends: the form every
status-carrying error message of the facade has. -/
lemma isSub_append (p n : String) : isSub n (p ++ n) = true := by
  unfold isSub
  rw [String.data_append]
  exact isSubL_append _ _

/-- C1: for every city, when the current-weather call returns status 200
with a body carrying Celsius temperature `c` and description `d`,
`get_weather` returns the success dict whose report is exactly
`The weather in {city} is {d} with a temperature of {c:.1f}°C ({f:.1f}°F).`
with `f = c * 9/5 + 32`. -/
theorem claim_C1 (key : Option String) (city : String)
    (http : String → Except String WeatherResp) (r : WeatherResp) (b : WeatherBody)
    (hh : http (weatherUrl city key) = Except.ok r) (hs : r.status_code = 200)
    (hj : r.json = Except.ok b) :
    (get_weather key city http).1 =
      mkSuccess ("The weather in " ++ city ++ " is " ++ b.description ++
        " with a temperature of " ++ fmt1 b.temp ++ "°C (" ++
        fmt1 (b.temp * 9 / 5 + 32) ++ "°F).") := by
  simp [get_weather, hh, hs, hj, weatherReport]

/-- Witness for C1: the London example of the specification, evaluated. -/
theorem claim_C1_witness :
    (get_weather (some "k") "London"
      (fun _ => Except.ok (WeatherResp.mk 200 (Except.ok (WeatherBody.mk 15 "clear sky"))))).1 =
      mkSuccess "The weather in London is clear sky with a temperature of 15.0°C (59.0°F)." := by
  have h := claim_C1 (some "k") "London"
    (fun _ => Except.ok (WeatherResp.mk 200 (Except.ok (WeatherBody.mk 15 "clear sky"))))
    (WeatherResp.mk 200 (Except.ok (WeatherBody.mk 15 "clear sky")))
    (WeatherBody.mk 15 "clear sky") rfl rfl rfl
  rw [h]
  have h59 : (WeatherBody.mk 15 "clear sky").temp * 9 / 5 + 32 = (59 : ℚ) := by norm_num
  rw [h59]
  decide

/-- C5: with an absent (or empty, hence falsy) weather credential,
`get_forecast` fails immediately with the missing-credential message and
performs no HTTP call at all (empty URL log). -/
theorem claim_C5 (dayOf : Int → String) (key : Option String) (city : String)
    (http : String → Except String ForecastResp) (hk : keyMissing key) :
    get_forecast dayOf key city http =
      (mkError "OpenWeather API key no está configurada", []) := by
  simp [get_forecast, hk]

/-- Witness for C5: unset credential, arbitrary oracle. -/
theorem claim_C5_witness :
    get_forecast (fun _ => "d") none "London" (fun _ => Except.error "net") =
      (mkError "OpenWeather API key no está configurada", []) :=
  claim_C5 (fun _ => "d") none "London" (fun _ => Except.error "net") (Or.inl rfl)

/-- C7: every exception raised during an HTTP call, JSON processing or time
formatting — all nine exception branches of the three operations — is caught
and converted into the error dict carrying the exception text, and the
failing call is attempted exactly once (the URL log is the single attempt
for that endpoint; the functions are total, so nothing propagates). -/
theorem claim_C7 :
    (∀ (key : Option String) (city e : String)
      (http : String → Except String WeatherResp),
      http (weatherUrl city key) = Except.error e →
      get_weather key city http =
        (mkError ("Error getting weather data: " ++ e), [weatherUrl city key])) ∧
    (∀ (key : Option String) (city e : String)
      (http : String → Except String WeatherResp) (r : WeatherResp),
      http (weatherUrl city key) = Except.ok r → r.status_code = 200 →
      r.json = Except.error e →
      get_weather key city http =
        (mkError ("Error getting weather data: " ++ e), [weatherUrl city key])) ∧
    (∀ (owKey tzKey : Option String) (city e : String)
      (geoHttp : String → Except String GeoResp)
      (tzHttp : String → Except String TzResp)
      (clock : String → Except String String),
      geoHttp (geoUrl city owKey) = Except.error e →
      get_current_time owKey tzKey city geoHttp tzHttp clock =
        (mkError ("Error getting time data: " ++ e), [geoUrl city owKey])) ∧
    (∀ (owKey tzKey : Option String) (city e : String)
      (geoHttp : String → Except String GeoResp)
      (tzHttp : String → Except String TzResp)
      (clock : String → Except String String) (g : GeoResp),
      geoHttp (geoUrl city owKey) = Except.ok g → g.status_code = 200 →
      g.json = Except.error e →
      get_current_time owKey tzKey city geoHttp tzHttp clock =
        (mkError ("Error getting time data: " ++ e), [geoUrl city owKey])) ∧
    (∀ (owKey tzKey : Option String) (city e : String)
      (geoHttp : String → Except String GeoResp)
      (tzHttp : String → Except String TzResp)
      (clock : String → Except String String)
      (g : GeoResp) (e0 : GeoEntry) (rest : List GeoEntry),
      geoHttp (geoUrl city owKey) = Except.ok g → g.status_code = 200 →
      g.json = Except.ok (e0 :: rest) →
      tzHttp (tzUrl tzKey e0.lat e0.lon) = Except.error e →
      get_current_time owKey tzKey city geoHttp tzHttp clock =
        (mkError ("Error getting time data: " ++ e),
          [geoUrl city owKey, tzUrl tzKey e0.lat e0.lon])) ∧
    (∀ (owKey tzKey : Option String) (city e : String)
      (geoHttp : String → Except String GeoResp)
      (tzHttp : String → Except String TzResp)
      (clock : String → Except String String)
      (g : GeoResp) (e0 : GeoEntry) (rest : List GeoEntry) (t : TzResp),
      geoHttp (geoUrl city owKey) = Except.ok g → g.status_code = 200 →
      g.json = Except.ok (e0 :: rest) →
      tzHttp (tzUrl tzKey e0.lat e0.lon) = Except.ok t → t.status_code = 200 →
      t.json = Except.error e →
      get_current_time owKey tzKey city geoHttp tzHttp clock =
        (mkError ("Error getting time data: " ++ e),
          [geoUrl city owKey, tzUrl tzKey e0.lat e0.lon])) ∧
    (∀ (owKey tzKey : Option String) (city e : String)
      (geoHttp : String → Except String GeoResp)
      (tzHttp : String → Except String TzResp)
      (clock : String → Except String String)
      (g : GeoResp) (e0 : GeoEntry) (rest : List GeoEntry) (t : TzResp) (b : TzBody),
      geoHttp (geoUrl city owKey) = Except.ok g → g.status_code = 200 →
      g.json = Except.ok (e0 :: rest) →
      tzHttp (tzUrl tzKey e0.lat e0.lon) = Except.ok t → t.status_code = 200 →
      t.json = Except.ok b → b.status = "OK" → clock b.zoneName = Except.error e →
      get_current_time owKey tzKey city geoHttp tzHttp clock =
        (mkError ("Error getting time data: " ++ e),
          [geoUrl city owKey, tzUrl tzKey e0.lat e0.lon])) ∧
    (∀ (dayOf : Int → String) (key : Option String) (city e : String)
      (http : String → Except String ForecastResp),
      ¬ keyMissing key → http (forecastUrl city key) = Except.error e →
      get_forecast dayOf key city http =
        (mkError ("Error getting forecast data: " ++ e), [forecastUrl city key])) ∧
    (∀ (dayOf : Int → String) (key : Option String) (city e : String)
      (http : String → Except String ForecastResp) (r : ForecastResp),
      ¬ keyMissing key → http (forecastUrl city key) = Except.ok r →
      r.status_code = 200 → r.json = Except.error e →
      get_forecast dayOf key city http =
        (mkError ("Error getting forecast data: " ++ e), [forecastUrl city key])) := by
  refine ⟨?_, ?_, ?_, ?_, ?_, ?_, ?_, ?_, ?_⟩
  · intro key city e http h
    simp [get_weather, h]
  · intro key city e http r hh hs hj
    simp [get_weather, hh, hs, hj]
  · intro owKey tzKey city e geoHttp tzHttp clock h
    simp [get_current_time, h]
  · intro owKey tzKey city e geoHttp tzHttp clock g hg hgs hgj
    simp [get_current_time, hg, hgs, hgj]
  · intro owKey tzKey city e geoHttp tzHttp clock g e0 rest hg hgs hgj ht
    simp [get_current_time, hg, hgs, hgj, ht]
  · intro owKey tzKey city e geoHttp tzHttp clock g e0 rest t hg hgs hgj ht hts htj
    simp [get_current_time, hg, hgs, hgj, ht, hts, htj]
  · intro owKey tzKey city e geoHttp tzHttp clock g e0 rest t b hg hgs hgj ht hts htj hb hc
    simp [get_current_time, hg, hgs, hgj, ht, hts, htj, hb, hc]
  · intro dayOf key city e http hk hh
    simp [get_forecast, hk, hh]
  · intro dayOf key city e http r hk hh hs hj
    simp [get_forecast, hk, hh, hs, hj]

/-- Witness for C7: one concrete instance of each of the nine exception
branches, each converted to the error dict with the exception text and a
log showing a single attempt of the failing endpoint. -/
theorem claim_C7_witness :
    get_weather (some "k") "London" (fun _ => Except.error "boom") =
      (mkError ("Error getting weather data: " ++ "boom"),
        [weatherUrl "London" (some "k")]) ∧
    get_weather (some "k") "Oslo"
        (fun _ => Except.ok (WeatherResp.mk 200 (Except.error "bad body"))) =
      (mkError ("Error getting weather data: " ++ "bad body"),
        [weatherUrl "Oslo" (some "k")]) ∧
    get_current_time (some "k") (some "t") "Paris" (fun _ => Except.error "boom")
        (fun _ => Except.error "x") (fun _ => Except.error "x") =
      (mkError ("Error getting time data: " ++ "boom"), [geoUrl "Paris" (some "k")]) ∧
    get_current_time (some "k") (some "t") "Rome"
        (fun _ => Except.ok (GeoResp.mk 200 (Except.error "bad geo")))
        (fun _ => Except.error "x") (fun _ => Except.error "x") =
      (mkError ("Error getting time data: " ++ "bad geo"), [geoUrl "Rome" (some "k")]) ∧
    get_current_time (some "k") (some "t") "Oslo"
        (fun _ => Except.ok (GeoResp.mk 200 (Except.ok [GeoEntry.mk 1 2])))
        (fun _ => Except.error "tz down") (fun _ => Except.error "x") =
      (mkError ("Error getting time data: " ++ "tz down"),
        [geoUrl "Oslo" (some "k"), tzUrl (some "t") 1 2]) ∧
    get_current_time (some "k") (some "t") "Kyiv"
        (fun _ => Except.ok (GeoResp.mk 200 (Except.ok [GeoEntry.mk 1 2])))
        (fun _ => Except.ok (TzResp.mk 200 (Except.error "bad tz body")))
        (fun _ => Except.error "x") =
      (mkError ("Error getting time data: " ++ "bad tz body"),
        [geoUrl "Kyiv" (some "k"), tzUrl (some "t") 1 2]) ∧
    get_current_time (some "k") (some "t") "Lima"
        (fun _ => Except.ok (GeoResp.mk 200 (Except.ok [GeoEntry.mk 1 2])))
        (fun _ => Except.ok (TzResp.mk 200 (Except.ok (TzBody.mk "OK" "Bad/Zone"))))
        (fun _ => Except.error "no zone") =
      (mkError ("Error getting time data: " ++ "no zone"),
        [geoUrl "Lima" (some "k"), tzUrl (some "t") 1 2]) ∧
    get_forecast (fun _ => "d") (some "k") "Lima" (fun _ => Except.error "boom") =
      (mkError ("Error getting forecast data: " ++ "boom"),
        [forecastUrl "Lima" (some "k")]) ∧
    get_forecast (fun _ => "d") (some "k") "Quito"
        (fun _ => Except.ok (ForecastResp.mk 200 (Except.error "bad list"))) =
      (mkError ("Error getting forecast data: " ++ "bad list"),
        [forecastUrl "Quito" (some "k")]) :=
  ⟨claim_C7.1 (some "k") "London" "boom" (fun _ => Except.error "boom") rfl,
   claim_C7.2.1 (some "k") "Oslo" "bad body"
     (fun _ => Except.ok (WeatherResp.mk 200 (Except.error "bad body")))
     (WeatherResp.mk 200 (Except.error "bad body")) rfl rfl rfl,
   claim_C7.2.2.1 (some "k") (some "t") "Paris" "boom" (fun _ => Except.error "boom")
     (fun _ => Except.error "x") (fun _ => Except.error "x") rfl,
   claim_C7.2.2.2.1 (some "k") (some "t") "Rome" "bad geo"
     (fun _ => Except.ok (GeoResp.mk 200 (Except.error "bad geo")))
     (fun _ => Except.error "x") (fun _ => Except.error "x")
     (GeoResp.mk 200 (Except.error "bad geo")) rfl rfl rfl,
   claim_C7.2.2.2.2.1 (some "k") (some "t") "Oslo" "tz down"
     (fun _ => Except.ok (GeoResp.mk 200 (Except.ok [GeoEntry.mk 1 2])))
     (fun _ => Except.error "tz down") (fun _ => Except.error "x")
     (GeoResp.mk 200 (Except.ok [GeoEntry.mk 1 2])) (GeoEntry.mk 1 2) []
     rfl rfl rfl rfl,
   claim_C7.2.2.2.2.2.1 (some "k") (some "t") "Kyiv" "bad tz body"
     (fun _ => Except.ok (GeoResp.mk 200 (Except.ok [GeoEntry.mk 1 2])))
     (fun _ => Except.ok (TzResp.mk 200 (Except.error "bad tz body")))
     (fun _ => Except.error "x")
     (GeoResp.mk 200 (Except.ok [GeoEntry.mk 1 2])) (GeoEntry.mk 1 2) []
     (TzResp.mk 200 (Except.error "bad tz body")) rfl rfl rfl rfl rfl rfl,
   claim_C7.2.2.2.2.2.2.1 (some "k") (some "t") "Lima" "no zone"
     (fun _ => Except.ok (GeoResp.mk 200 (Except.ok [GeoEntry.mk 1 2])))
     (fun _ => Except.ok (TzResp.mk 200 (Except.ok (TzBody.mk "OK" "Bad/Zone"))))
     (fun _ => Except.error "no zone")
     (GeoResp.mk 200 (Except.ok [GeoEntry.mk 1 2])) (GeoEntry.mk 1 2) []
     (TzResp.mk 200 (Except.ok (TzBody.mk "OK" "Bad/Zone"))) (TzBody.mk "OK" "Bad/Zone")
     rfl rfl rfl rfl rfl rfl rfl rfl,
   claim_C7.2.2.2.2.2.2.2.1 (fun _ => "d") (some "k") "Lima" "boom"
     (fun _ => Except.error "boom") (by decide) rfl,
   claim_C7.2.2.2.2.2.2.2.2 (fun _ => "d") (some "k") "Quito" "bad list"
     (fun _ => Except.ok (ForecastResp.mk 200 (Except.error "bad list")))
     (ForecastResp.mk 200 (Except.error "bad list")) (by decide) rfl rfl rfl⟩


/-- C10: unlike `get_forecast`, `get_weather` performs no credential check:
with the credential absent it still issues its single HTTP call, with the
absent key interpolated into the URL as the text `None`, while
`get_forecast` returns the missing-credential error without any call. -/
theorem claim_C10 :
    (∀ (city : String) (http : String → Except String WeatherResp),
      (get_weather none city http).2 = [weatherUrl city none]) ∧
    (∀ city : String, weatherUrl city none =
      "http://api.openweathermap.org/data/2.5/weather?q=" ++ city ++
        ("&appid=" ++ "None" ++ "&units=metric")) ∧
    (weatherUrl "London" none =
      "http://api.openweathermap.org/data/2.5/weather?q=London&appid=None&units=metric") ∧
    (∀ (dayOf : Int → String) (city : String)
      (http : String → Except String ForecastResp),
      get_forecast dayOf none city http =
        (mkError "OpenWeather API key no está configurada", [])) := by
  refine ⟨?_, fun city => rfl, by decide, ?_⟩
  · intro city http
    rcases weather_cases none city http with
      ⟨e, _, h⟩ | ⟨r, e, _, _, _, h⟩ | ⟨r, b, _, _, _, h⟩ | ⟨r, _, _, h⟩ <;> rw [h]
  · intro dayOf city http
    simp [get_forecast, keyMissing]

/-- C2: every invocation of the three tools returns a dict with exactly one
variant populated: status `success` with a report and no error message, or
status `error` with an error message and no report — for all inputs and all
provider behaviours. -/
theorem claim_C2 :
    (∀ (key : Option String) (city : String)
      (http : String → Except String WeatherResp),
      exactlyOne (get_weather key city http).1) ∧
    (∀ (owKey tzKey : Option String) (city : String)
      (geoHttp : String → Except String GeoResp)
      (tzHttp : String → Except String TzResp)
      (clock : String → Except String String),
      exactlyOne (get_current_time owKey tzKey city geoHttp tzHttp clock).1) ∧
    (∀ (dayOf : Int → String) (key : Option String) (city : String)
      (http : String → Except String ForecastResp),
      exactlyOne (get_forecast dayOf key city http).1) := by
  refine ⟨?_, ?_, ?_⟩
  · intro key city http
    rcases weather_cases key city http with
      ⟨e, _, h⟩ | ⟨r, e, _, _, _, h⟩ | ⟨r, b, _, _, _, h⟩ | ⟨r, _, _, h⟩ <;> rw [h]
    · exact exactlyOne_mkError _
    · exact exactlyOne_mkError _
    · exact exactlyOne_mkSuccess _
    · exact exactlyOne_mkError _
  · intro owKey tzKey city geoHttp tzHttp clock
    rcases time_cases owKey tzKey city geoHttp tzHttp clock with
      ⟨e, _, h⟩ | ⟨g, _, _, h⟩ | ⟨g, e, _, _, _, h⟩ | ⟨g, _, _, _, h⟩ |
      ⟨g, e0, rest, _, _, _, hrest⟩
    · rw [h]; exact exactlyOne_mkError _
    · rw [h]; exact exactlyOne_mkError _
    · rw [h]; exact exactlyOne_mkError _
    · rw [h]; exact exactlyOne_mkError _
    · rcases hrest with
        ⟨e, _, h⟩ | ⟨t, _, _, h⟩ | ⟨t, e, _, _, _, h⟩ | ⟨t, b, _, _, _, _, h⟩ |
        ⟨t, b, e, _, _, _, _, _, h⟩ | ⟨t, b, now, _, _, _, _, _, h⟩ <;> rw [h]
      · exact exactlyOne_mkError _
      · exact exactlyOne_mkError _
      · exact exactlyOne_mkError _
      · exact exactlyOne_mkError _
      · exact exactlyOne_mkError _
      · exact exactlyOne_mkSuccess _
  · intro dayOf key city http
    rcases forecast_cases dayOf key city http with
      ⟨_, h⟩ | ⟨_, ⟨e, _, h⟩ | ⟨r, e, _, _, _, h⟩ | ⟨r, ss, _, _, _, h⟩ | ⟨r, _, _, h⟩⟩ <;>
        rw [h]
    · exact exactlyOne_mkError _
    · exact exactlyOne_mkError _
    · exact exactlyOne_mkError _
    · exact exactlyOne_mkSuccess _
    · exact exactlyOne_mkError _

/-- Counterexample to C3 as stated: a 401 response makes `get_forecast`
return the fixed invalid-API-key message, which does not embed the status
code 401 anywhere. -/
theorem claim_C3_counterexample :
    (get_forecast (fun _ => "d") (some "k") "London"
        (fun _ => Except.ok (ForecastResp.mk 401 (Except.error "x")))).1 =
      mkError "API key inválida o no configurada correctamente" ∧
    isSub (toString 401) "API key inválida o no configurada correctamente" = false := by
  constructor
  · decide
  · decide

/-- C3 (amended): for every non-200 status, `get_weather` embeds the status
code in its error message; `get_forecast` embeds it for statuses other than
401 and 404, while 401 yields the fixed invalid-API-key message and 404 the
city-not-found message, neither of which embeds the code. -/
theorem claim_C3 (key : Option String) (city : String) (s : Nat) :
    (∀ (http : String → Except String WeatherResp) (r : WeatherResp),
      http (weatherUrl city key) = Except.ok r → r.status_code = s → s ≠ 200 →
      ∃ m, (get_weather key city http).1 = mkError m ∧
        isSub (toString s) m = true) ∧
    (∀ (dayOf : Int → String) (http : String → Except String ForecastResp)
      (r : ForecastResp),
      ¬ keyMissing key → http (forecastUrl city key) = Except.ok r →
      r.status_code = s → s ≠ 200 →
      ∃ m, (get_forecast dayOf key city http).1 = mkError m ∧
        (s ≠ 401 → s ≠ 404 → isSub (toString s) m = true) ∧
        (s = 401 → m = "API key inválida o no configurada correctamente") ∧
        (s = 404 → m = "No se encontró la ciudad: " ++ city)) := by
  constructor
  · intro http r hh hs hne
    have hne2 : r.status_code ≠ 200 := by rw [hs]; exact hne
    have h : (get_weather key city http).1 =
        mkError ("Weather information for \x27" ++ city ++
          "\x27 is not available. Error: " ++ toString r.status_code) := by
      simp [get_weather, hh, hne2]
    rw [hs] at h
    exact ⟨_, h, isSub_append _ _⟩
  · intro dayOf http r hk hh hs hne
    have hne2 : r.status_code ≠ 200 := by rw [hs]; exact hne
    have h : (get_forecast dayOf key city http).1 =
        mkError (forecastErrMsg city r.status_code) := by
      simp [get_forecast, hk, hh, hne2]
    rw [hs] at h
    refine ⟨_, h, ?_, ?_, ?_⟩
    · intro h401 h404
      unfold forecastErrMsg
      rw [if_neg h401, if_neg h404]
      exact isSub_append _ _
    · intro h401
      unfold forecastErrMsg
      rw [if_pos h401]
    · intro h404
      have h401 : s ≠ 401 := by rw [h404]; decide
      unfold forecastErrMsg
      rw [if_neg h401, if_pos h404]

/-- Witness for the amended C3: a 500 weather response embeds `500`; a 404
forecast response produces the city-not-found message. -/
theorem claim_C3_witness :
    (∃ m, (get_weather (some "k") "London"
        (fun _ => Except.ok (WeatherResp.mk 500 (Except.error "x")))).1 = mkError m ∧
      isSub (toString 500) m = true) ∧
    (∃ m, (get_forecast (fun _ => "d") (some "k") "Quito"
        (fun _ => Except.ok (ForecastResp.mk 404 (Except.error "x")))).1 = mkError m ∧
      ((404 : Nat) ≠ 401 → (404 : Nat) ≠ 404 → isSub (toString 404) m = true) ∧
      ((404 : Nat) = 401 → m = "API key inválida o no configurada correctamente") ∧
      ((404 : Nat) = 404 → m = "No se encontró la ciudad: " ++ "Quito")) :=
  ⟨(claim_C3 (some "k") "London" 500).1
      (fun _ => Except.ok (WeatherResp.mk 500 (Except.error "x")))
      (WeatherResp.mk 500 (Except.error "x")) rfl rfl (by decide),
   (claim_C3 (some "k") "Quito" 404).2 (fun _ => "d")
      (fun _ => Except.ok (ForecastResp.mk 404 (Except.error "x")))
      (ForecastResp.mk 404 (Except.error "x")) (by decide) rfl rfl (by decide)⟩

/-- C6: the timezone endpoint is called only after the geocoding call
returned 200 with a non-empty list (the URL log is then exactly geocoding
URL followed by timezone URL); with an empty geocoding result the log stops
at the geocoding URL and the operation fails with the city-not-found
message. -/
theorem claim_C6 (owKey tzKey : Option String) (city : String)
    (geoHttp : String → Except String GeoResp)
    (tzHttp : String → Except String TzResp)
    (clock : String → Except String String) :
    ((get_current_time owKey tzKey city geoHttp tzHttp clock).2 =
        [geoUrl city owKey] ∨
      (∃ g e0 rest, geoHttp (geoUrl city owKey) = Except.ok g ∧
        g.status_code = 200 ∧ g.json = Except.ok (e0 :: rest) ∧
        (get_current_time owKey tzKey city geoHttp tzHttp clock).2 =
          [geoUrl city owKey, tzUrl tzKey e0.lat e0.lon])) ∧
    (∀ g, geoHttp (geoUrl city owKey) = Except.ok g → g.status_code = 200 →
      g.json = Except.ok [] →
      get_current_time owKey tzKey city geoHttp tzHttp clock =
        (mkError ("City \x27" ++ city ++ "\x27 not found"), [geoUrl city owKey])) := by
  constructor
  · rcases time_cases owKey tzKey city geoHttp tzHttp clock with
      ⟨e, _, h⟩ | ⟨g, _, _, h⟩ | ⟨g, e, _, _, _, h⟩ | ⟨g, _, _, _, h⟩ |
      ⟨g, e0, rest, hg, hgs, hgj, hrest⟩
    · exact Or.inl (by rw [h])
    · exact Or.inl (by rw [h])
    · exact Or.inl (by rw [h])
    · exact Or.inl (by rw [h])
    · refine Or.inr ⟨g, e0, rest, hg, hgs, hgj, ?_⟩
      rcases hrest with
        ⟨e, _, h⟩ | ⟨t, _, _, h⟩ | ⟨t, e, _, _, _, h⟩ | ⟨t, b, _, _, _, _, h⟩ |
        ⟨t, b, e, _, _, _, _, _, h⟩ | ⟨t, b, now, _, _, _, _, _, h⟩ <;> rw [h]
  · intro g hg hgs hgj
    simp [get_current_time, hg, hgs, hgj]

/-- Witness for C6: an empty geocoding result produces the city-not-found
error and a log showing that only the geocoding endpoint was contacted. -/
theorem claim_C6_witness :
    get_current_time none none "Atlantis"
        (fun _ => Except.ok (GeoResp.mk 200 (Except.ok [])))
        (fun _ => Except.error "never") (fun _ => Except.error "never") =
      (mkError ("City \x27" ++ "Atlantis" ++ "\x27 not found"),
        [geoUrl "Atlantis" none]) :=
  (claim_C6 none none "Atlantis"
      (fun _ => Except.ok (GeoResp.mk 200 (Except.ok [])))
      (fun _ => Except.error "never") (fun _ => Except.error "never")).2
    (GeoResp.mk 200 (Except.ok [])) rfl rfl rfl

/-- C9: `get_current_time` returns a success dict only when the geocoding
call returned 200 with a non-empty list, the timezone call returned 200,
the provider status field is `OK` and the zone resolution plus formatting
succeeded; the report is then exactly
`The current time in {city} is {t}` for the formatted local time `t`. -/
theorem claim_C9 (owKey tzKey : Option String) (city : String)
    (geoHttp : String → Except String GeoResp)
    (tzHttp : String → Except String TzResp)
    (clock : String → Except String String)
    (hsucc : (get_current_time owKey tzKey city geoHttp tzHttp clock).1.status =
      "success") :
    ∃ g e0 rest t b now,
      geoHttp (geoUrl city owKey) = Except.ok g ∧ g.status_code = 200 ∧
      g.json = Except.ok (e0 :: rest) ∧
      tzHttp (tzUrl tzKey e0.lat e0.lon) = Except.ok t ∧ t.status_code = 200 ∧
      t.json = Except.ok b ∧ b.status = "OK" ∧ clock b.zoneName = Except.ok now ∧
      (get_current_time owKey tzKey city geoHttp tzHttp clock).1 =
        mkSuccess ("The current time in " ++ city ++ " is " ++ now) := by
  rcases time_cases owKey tzKey city geoHttp tzHttp clock with
    ⟨e, _, h⟩ | ⟨g, _, _, h⟩ | ⟨g, e, _, _, _, h⟩ | ⟨g, _, _, _, h⟩ |
    ⟨g, e0, rest, hg, hgs, hgj, hrest⟩
  · rw [h] at hsucc; exact absurd (show ("error" : String) = "success" from hsucc) (by decide)
  · rw [h] at hsucc; exact absurd (show ("error" : String) = "success" from hsucc) (by decide)
  · rw [h] at hsucc; exact absurd (show ("error" : String) = "success" from hsucc) (by decide)
  · rw [h] at hsucc; exact absurd (show ("error" : String) = "success" from hsucc) (by decide)
  · rcases hrest with
      ⟨e, _, h⟩ | ⟨t, _, _, h⟩ | ⟨t, e, _, _, _, h⟩ | ⟨t, b, _, _, _, _, h⟩ |
      ⟨t, b, e, _, _, _, _, _, h⟩ | ⟨t, b, now, ht, hts, htj, hb, hc, h⟩
    · rw [h] at hsucc; exact absurd (show ("error" : String) = "success" from hsucc) (by decide)
    · rw [h] at hsucc; exact absurd (show ("error" : String) = "success" from hsucc) (by decide)
    · rw [h] at hsucc; exact absurd (show ("error" : String) = "success" from hsucc) (by decide)
    · rw [h] at hsucc; exact absurd (show ("error" : String) = "success" from hsucc) (by decide)
    · rw [h] at hsucc; exact absurd (show ("error" : String) = "success" from hsucc) (by decide)
    · exact ⟨g, e0, rest, t, b, now, hg, hgs, hgj, ht, hts, htj, hb, hc,
        by rw [h]⟩

/-- Witness for C9: the Paris example of the specification with a concrete
clock. -/
theorem claim_C9_witness :
    ∃ g e0 rest t b now,
      (Except.ok (GeoResp.mk 200 (Except.ok [GeoEntry.mk 49 2])) :
          Except String GeoResp) = Except.ok g ∧
      g.status_code = 200 ∧ g.json = Except.ok (e0 :: rest) ∧
      (Except.ok (TzResp.mk 200 (Except.ok (TzBody.mk "OK" "Europe/Paris"))) :
          Except String TzResp) = Except.ok t ∧
      t.status_code = 200 ∧ t.json = Except.ok b ∧ b.status = "OK" ∧
      (Except.ok "2025-06-01 12:00:00 CEST" : Except String String) =
        Except.ok now ∧
      (get_current_time (some "k") (some "t") "Paris"
          (fun _ => Except.ok (GeoResp.mk 200 (Except.ok [GeoEntry.mk 49 2])))
          (fun _ => Except.ok (TzResp.mk 200 (Except.ok (TzBody.mk "OK" "Europe/Paris"))))
          (fun _ => Except.ok "2025-06-01 12:00:00 CEST")).1 =
        mkSuccess ("The current time in " ++ "Paris" ++ " is " ++ now) :=
  claim_C9 (some "k") (some "t") "Paris"
    (fun _ => Except.ok (GeoResp.mk 200 (Except.ok [GeoEntry.mk 49 2])))
    (fun _ => Except.ok (TzResp.mk 200 (Except.ok (TzBody.mk "OK" "Europe/Paris"))))
    (fun _ => Except.ok "2025-06-01 12:00:00 CEST") rfl

lemma foldl_updAgg_max_none : ∀ (l : List Sample) (a : DayAgg),
    (l.foldl updAgg a).temp_max = none → a.temp_max = none ∧ l = [] := by
  intro l
  induction l with
  | nil => exact fun a h => ⟨by simpa using h, rfl⟩
  | cons s t ih =>
      intro a h
      rw [List.foldl_cons] at h
      have hc := (ih _ h).1
      simp [updAgg] at hc

/-- C8: each day's aggregate in the grouped forecast dictionary carries the
minimum of `temp_min` over the day's samples, the maximum of `temp_max`
over the day's samples, and the duplicate-free set of the descriptions
observed that day. -/
theorem claim_C8 (dayOf : Int → String) (ss : List Sample) (d : String)
    (a : DayAgg) (hmem : (d, a) ∈ groupDaily dayOf ss) :
    (∃ m, a.temp_min = some m ∧
      m ∈ (ss.filter (fun s => dayOf s.dt == d)).map (fun s => s.temp_min) ∧
      ∀ x ∈ (ss.filter (fun s => dayOf s.dt == d)).map (fun s => s.temp_min),
        m ≤ x) ∧
    (∃ m, a.temp_max = some m ∧
      m ∈ (ss.filter (fun s => dayOf s.dt == d)).map (fun s => s.temp_max) ∧
      ∀ x ∈ (ss.filter (fun s => dayOf s.dt == d)).map (fun s => s.temp_max),
        x ≤ m) ∧
    a.descriptions.Nodup ∧
    (∀ c, c ∈ a.descriptions ↔
      c ∈ (ss.filter (fun s => dayOf s.dt == d)).map (fun s => s.description)) := by
  have hnd : ((groupDaily dayOf ss).map Prod.fst).Nodup := by
    rw [keys_groupDaily]
    exact nodup_firstSeen _
  have hl := lookupA_of_mem _ hnd d a hmem
  rw [lookupA_groupDaily] at hl
  cases hf : ss.filter (fun s => dayOf s.dt == d) with
  | nil =>
      rw [hf] at hl
      exact Option.noConfusion hl
  | cons s0 rest =>
      rw [hf] at hl
      simp only [extendAgg, Option.some.injEq] at hl
      subst hl
      refine ⟨?_, ?_, ?_, ?_⟩
      · cases hmin : ((s0 :: rest).foldl updAgg emptyAgg).temp_min with
        | none =>
            obtain ⟨-, h2⟩ := foldl_updAgg_min_none _ _ hmin
            exact absurd h2 (by simp)
        | some m =>
            obtain ⟨hm1, hm2, -⟩ := foldl_updAgg_min _ _ _ hmin
            refine ⟨m, rfl, ?_, hm2⟩
            rcases hm1 with h | h
            · exact h
            · exact absurd h (by simp [emptyAgg])
      · cases hmax : ((s0 :: rest).foldl updAgg emptyAgg).temp_max with
        | none =>
            obtain ⟨-, h2⟩ := foldl_updAgg_max_none _ _ hmax
            exact absurd h2 (by simp)
        | some m =>
            obtain ⟨hm1, hm2, -⟩ := foldl_updAgg_max _ _ _ hmax
            refine ⟨m, rfl, ?_, hm2⟩
            rcases hm1 with h | h
            · exact h
            · exact absurd h (by simp [emptyAgg])
      · exact foldl_updAgg_desc_nodup _ _ (by simp [emptyAgg])
      · intro c
        rw [foldl_updAgg_desc_mem]
        simp [emptyAgg]

/-- Witness for C8: two same-day samples aggregate to the smaller minimum,
the larger maximum and both descriptions. -/
theorem claim_C8_witness :
    (∃ m, (DayAgg.mk (some 8) (some 25) ["rain", "sun"]).temp_min = some m ∧
      m ∈ (([Sample.mk 0 10 20 "rain", Sample.mk 1 8 25 "sun"].filter
        (fun s => (fun _ => "2025-01-01") s.dt == "2025-01-01")).map
          (fun s => s.temp_min)) ∧
      ∀ x ∈ (([Sample.mk 0 10 20 "rain", Sample.mk 1 8 25 "sun"].filter
        (fun s => (fun _ => "2025-01-01") s.dt == "2025-01-01")).map
          (fun s => s.temp_min)), m ≤ x) ∧
    (∃ m, (DayAgg.mk (some 8) (some 25) ["rain", "sun"]).temp_max = some m ∧
      m ∈ (([Sample.mk 0 10 20 "rain", Sample.mk 1 8 25 "sun"].filter
        (fun s => (fun _ => "2025-01-01") s.dt == "2025-01-01")).map
          (fun s => s.temp_max)) ∧
      ∀ x ∈ (([Sample.mk 0 10 20 "rain", Sample.mk 1 8 25 "sun"].filter
        (fun s => (fun _ => "2025-01-01") s.dt == "2025-01-01")).map
          (fun s => s.temp_max)), x ≤ m) ∧
    (DayAgg.mk (some 8) (some 25) ["rain", "sun"]).descriptions.Nodup ∧
    (∀ c, c ∈ (DayAgg.mk (some 8) (some 25) ["rain", "sun"]).descriptions ↔
      c ∈ (([Sample.mk 0 10 20 "rain", Sample.mk 1 8 25 "sun"].filter
        (fun s => (fun _ => "2025-01-01") s.dt == "2025-01-01")).map
          (fun s => s.description))) :=
  claim_C8 (fun _ => "2025-01-01")
    [Sample.mk 0 10 20 "rain", Sample.mk 1 8 25 "sun"] "2025-01-01"
    (DayAgg.mk (some 8) (some 25) ["rain", "sun"]) (by decide)

/-- C4: on a 200 forecast response the report is built from the grouped
per-day aggregates truncated to the first 5 entries; the group keys are the
distinct days in first-seen order (one aggregate per day), the rendered
prefix has length `min 5 (number of distinct days)`, and with at least 5
distinct days (such as 7) the report has exactly 5 day blocks, carrying the
first 5 distinct days in first-seen order. -/
theorem claim_C4 (dayOf : Int → String) (key : Option String) (city : String)
    (http : String → Except String ForecastResp) (r : ForecastResp)
    (ss : List Sample) (hk : ¬ keyMissing key)
    (hh : http (forecastUrl city key) = Except.ok r) (hs : r.status_code = 200)
    (hj : r.json = Except.ok ss) :
    (get_forecast dayOf key city http).1 =
      mkSuccess (renderForecast city ((groupDaily dayOf ss).take 5)) ∧
    (groupDaily dayOf ss).map Prod.fst =
      firstSeen (ss.map (fun s => dayOf s.dt)) ∧
    ((groupDaily dayOf ss).map Prod.fst).Nodup ∧
    ((groupDaily dayOf ss).take 5).length =
      min 5 (firstSeen (ss.map (fun s => dayOf s.dt))).length ∧
    (5 ≤ (firstSeen (ss.map (fun s => dayOf s.dt))).length →
      ((groupDaily dayOf ss).take 5).length = 5 ∧
      ((groupDaily dayOf ss).take 5).map Prod.fst =
        (firstSeen (ss.map (fun s => dayOf s.dt))).take 5) := by
  have hkeys := keys_groupDaily dayOf ss
  have hlen : (groupDaily dayOf ss).length =
      (firstSeen (ss.map (fun s => dayOf s.dt))).length := by
    rw [← hkeys, List.length_map]
  refine ⟨by simp [get_forecast, hk, hh, hs, hj], hkeys, ?_, ?_, ?_⟩
  · rw [hkeys]
    exact nodup_firstSeen _
  · rw [List.length_take, hlen]
  · intro h5
    constructor
    · rw [List.length_take, hlen]
      exact min_eq_left h5
    · rw [List.map_take, hkeys]

/-- Witness for C4: samples on 7 distinct days; the report keeps exactly 5
day blocks. -/
theorem claim_C4_witness :
    ((groupDaily (fun n => toString n)
      [Sample.mk 0 1 2 "c", Sample.mk 1 1 2 "c", Sample.mk 2 1 2 "c",
       Sample.mk 3 1 2 "c", Sample.mk 4 1 2 "c", Sample.mk 5 1 2 "c",
       Sample.mk 6 1 2 "c"]).take 5).length = 5 ∧
    (get_forecast (fun n => toString n) (some "k") "Lima"
      (fun _ => Except.ok (ForecastResp.mk 200 (Except.ok
        [Sample.mk 0 1 2 "c", Sample.mk 1 1 2 "c", Sample.mk 2 1 2 "c",
         Sample.mk 3 1 2 "c", Sample.mk 4 1 2 "c", Sample.mk 5 1 2 "c",
         Sample.mk 6 1 2 "c"])))).1 =
      mkSuccess (renderForecast "Lima" ((groupDaily (fun n => toString n)
        [Sample.mk 0 1 2 "c", Sample.mk 1 1 2 "c", Sample.mk 2 1 2 "c",
         Sample.mk 3 1 2 "c", Sample.mk 4 1 2 "c", Sample.mk 5 1 2 "c",
         Sample.mk 6 1 2 "c"]).take 5)) := by
  have h := claim_C4 (fun n => toString n) (some "k") "Lima"
    (fun _ => Except.ok (ForecastResp.mk 200 (Except.ok
      [Sample.mk 0 1 2 "c", Sample.mk 1 1 2 "c", Sample.mk 2 1 2 "c",
       Sample.mk 3 1 2 "c", Sample.mk 4 1 2 "c", Sample.mk 5 1 2 "c",
       Sample.mk 6 1 2 "c"])))
    (ForecastResp.mk 200 (Except.ok
      [Sample.mk 0 1 2 "c", Sample.mk 1 1 2 "c", Sample.mk 2 1 2 "c",
       Sample.mk 3 1 2 "c", Sample.mk 4 1 2 "c", Sample.mk 5 1 2 "c",
       Sample.mk 6 1 2 "c"]))
    [Sample.mk 0 1 2 "c", Sample.mk 1 1 2 "c", Sample.mk 2 1 2 "c",
     Sample.mk 3 1 2 "c", Sample.mk 4 1 2 "c", Sample.mk 5 1 2 "c",
     Sample.mk 6 1 2 "c"]
    (by decide) rfl rfl rfl
  exact ⟨(h.2.2.2.2 (by decide)).1, h.1⟩
